import Mathlib

/-!
Shallow embedding of src/c_service/main.c (VOTS repository): a minimal
libmicrohttpd HTTP server with two fixed responses, a startup sequence,
and a signal-driven shutdown handler.  Library calls (MHD_* functions)
are modelled by an explicit environment recording their outcomes, and
observable behaviour (stdout, stderr, library calls, process exit) is
recorded as traces of events.
-/

namespace CService

/-- HTTP status constant MHD_HTTP_OK from the microhttpd headers. -/
def MHD_HTTP_OK : Nat := 200

/-- The fixed listening port, from the PORT macro in main.c. -/
def PORT : Nat := 5000

/-- Result codes of microhttpd callbacks: MHD_YES or MHD_NO. -/
inductive MHD_Result
  | MHD_YES
  | MHD_NO
deriving DecidableEq, BEq

/-- An HTTP response as handed to MHD_queue_response: a status code and
the body buffer the response was created from. -/
structure Response where
  status : Nat
  body : String
deriving DecidableEq, BEq

/-- Behaviour of the microhttpd library during one invocation of the
request handler: whether MHD_create_response_from_buffer returns a
non-null pointer, and what MHD_queue_response returns when it is
called. -/
structure MHDEnv where
  createOk : Bool
  queueResult : MHD_Result

/-- Observable outcome of one invocation of handle_request: the value
returned to the library, the response passed to MHD_queue_response (if
any), the final values of the in/out parameters upload_data_size and
con_cls, and whether the handler terminated the process. -/
structure HandlerOutcome where
  result : MHD_Result
  queued : Option Response
  uploadDataSizeOut : Nat
  conClsOut : Nat
  exited : Bool
deriving DecidableEq

/-- Embedding of handle_request from main.c.  The page is chosen by
strcmp of the url against "/health"; a response object is created from
that buffer (returning MHD_NO if creation fails), queued with status
MHD_HTTP_OK, destroyed, and the queueing result returned.  The
parameters method, version and upload_data are received but never read,
and the locations upload_data_size and con_cls are never written; the
pointer-typed con_cls location is modelled as a number. -/
def handle_request (env : MHDEnv) (url method version upload_data : String)
    (upload_data_size : Nat) (con_cls : Nat) : HandlerOutcome :=
  let page : String :=
    if url = "/health" then "OK"
    else "Hello from C Service (Low-level tasks)"
  if env.createOk then
    { result := env.queueResult
      queued := some { status := MHD_HTTP_OK, body := page }
      uploadDataSizeOut := upload_data_size
      conClsOut := con_cls
      exited := false }
  else
    { result := MHD_Result.MHD_NO
      queued := none
      uploadDataSizeOut := upload_data_size
      conClsOut := con_cls
      exited := false }

/-- Observable events of the process: writes to stdout and stderr, the
library calls made by main and by the signal handler, and the blocking
pause call. -/
inductive Event
  | stdout (s : String)
  | stderr (s : String)
  | startDaemon (port : Nat)
  | installHandler (sig : Nat)
  | stopDaemon
  | pauseCall
deriving DecidableEq, BEq

/-- The signal number SIGINT on Linux. -/
def SIGINT : Nat := 2

/-- The signal number SIGTERM on Linux. -/
def SIGTERM : Nat := 15

/-- Embedding of stop_server from main.c, acting on the global
http_daemon handle (modelled as an optional abstract handle).  It
returns the events the handler emits and the exit code it passes to
exit, if it exits.  When the handle is null the body is skipped
entirely. -/
def stop_server (http_daemon : Option Unit) : List Event × Option Nat :=
  match http_daemon with
  | some _ =>
      ([Event.stdout "Stopping C Service...\n", Event.stopDaemon], some 0)
  | none => ([], none)

/-- Embedding of main from main.c, parameterised by whether
MHD_start_daemon returns a non-null handle.  It returns the trace of
events up to the point where main either returns (exit code given) or
blocks in pause (no exit code: the process thereafter terminates only
through the signal handler). -/
def main_trace (bindOk : Bool) : List Event × Option Nat :=
  let pre : List Event :=
    [Event.stdout "C Service => port 5000\n", Event.startDaemon PORT]
  if bindOk then
    (pre ++ [Event.installHandler SIGINT, Event.installHandler SIGTERM,
             Event.pauseCall], none)
  else
    (pre ++ [Event.stderr "Failed to start microhttpd.\n"], some 1)

/-- Process states after startup succeeded: either still running with
the current value of the global http_daemon handle, or exited with a
code. -/
inductive ProcState
  | running (http_daemon : Option Unit)
  | exited (code : Nat)
deriving DecidableEq

/-- Delivery of a signal to the process after main has installed its
handlers.  A signal delivered to an exited process has no effect.  For
a running process, stop_server is invoked exactly for the two signals
main registered it for (SIGINT and SIGTERM); the default dispositions
of other signals are outside the model, so for them no installed
handler runs. -/
def deliverSignal (sig : Nat) (s : ProcState) : ProcState × List Event :=
  match s with
  | ProcState.exited c => (ProcState.exited c, [])
  | ProcState.running d =>
      if sig = SIGINT ∨ sig = SIGTERM then
        match stop_server d with
        | (evs, some code) => (ProcState.exited code, evs)
        | (evs, none) => (ProcState.running d, evs)
      else (ProcState.running d, [])

/-- Index of the first occurrence of an event in a trace (length of the
trace if absent). -/
def firstIdx (tr : List Event) (e : Event) : Nat :=
  tr.findIdx (fun x => x == e)

/-- The fallback response body for paths other than /health. -/
def helloBody : String := "Hello from C Service (Low-level tasks)"

end CService

open CService

/-- Claim C1: for every request whose URL path is exactly /health,
regardless of method, protocol version, upload data or the con_cls
slot, whenever response construction succeeds the handler queues a
response with HTTP status 200 and body exactly OK. -/
theorem health_path_yields_ok (qr : MHD_Result) (m v d : String) (s c : Nat) :
    (handle_request ⟨true, qr⟩ "/health" m v d s c).queued =
      some ⟨200, "OK"⟩ := by
  simp [handle_request, MHD_HTTP_OK]

/-- Claim C2: whenever response construction succeeds, every path is
answered with status 200 (there is no unmatched or 404 branch), and
every path other than the exact, case-sensitive string /health is
answered with the fixed fallback body. -/
theorem other_path_yields_hello (qr : MHD_Result) (url m v d : String)
    (s c : Nat) (hu : url ≠ "/health") :
    (∃ r, (handle_request ⟨true, qr⟩ url m v d s c).queued = some r ∧
       r.status = 200) ∧
    (handle_request ⟨true, qr⟩ url m v d s c).queued =
      some ⟨200, helloBody⟩ := by
  refine ⟨⟨⟨200, helloBody⟩, ?_, rfl⟩, ?_⟩ <;>
    simp [handle_request, MHD_HTTP_OK, helloBody, hu]

/-- Witness for claim C2 at the path /Health, which differs from
/health only in casing. -/
theorem other_path_yields_hello_witness :
    ("/Health" : String) ≠ "/health" ∧
    ((∃ r, (handle_request ⟨true, MHD_Result.MHD_YES⟩ "/Health" "POST"
        "HTTP/1.1" "body" 4 0).queued = some r ∧ r.status = 200) ∧
     (handle_request ⟨true, MHD_Result.MHD_YES⟩ "/Health" "POST"
        "HTTP/1.1" "body" 4 0).queued = some ⟨200, helloBody⟩) :=
  ⟨by decide,
   other_path_yields_hello MHD_Result.MHD_YES "/Health" "POST" "HTTP/1.1"
     "body" 4 0 (by decide)⟩

/-- Claim C3: when MHD_start_daemon returns no handle, main writes the
failure message to stderr and returns 1, with no second bind attempt,
no signal handler installation and no blocking pause. -/
theorem bind_failure_exits_one :
    (main_trace false).2 = some 1 ∧
    Event.stderr "Failed to start microhttpd.\n" ∈ (main_trace false).1 ∧
    (∀ sig : Nat, Event.installHandler sig ∉ (main_trace false).1) ∧
    Event.pauseCall ∉ (main_trace false).1 ∧
    (main_trace false).1.count (Event.startDaemon PORT) = 1 := by
  refine ⟨by decide, ?_, ?_, ?_, by decide⟩
  · simp [main_trace]
  · intro sig; simp [main_trace, PORT]
  · simp [main_trace, PORT]

/-- Counterexample to claim C4 as stated: in stop_server with a live
handle, the diagnostic message is printed before MHD_stop_daemon is
called, so the listener release does not precede the diagnostic. -/
theorem shutdown_order_counterexample :
    ¬ (firstIdx (stop_server (some ())).1 Event.stopDaemon <
       firstIdx (stop_server (some ())).1
         (Event.stdout "Stopping C Service...\n")) := by
  decide

/-- Claim C4 (amended): on a termination signal with a live handle the
shutdown sequence emits the diagnostic message, then stops and releases
the listener, then exits with status 0. -/
theorem shutdown_diag_then_release_then_exit :
    (stop_server (some ())).2 = some 0 ∧
    Event.stdout "Stopping C Service...\n" ∈ (stop_server (some ())).1 ∧
    Event.stopDaemon ∈ (stop_server (some ())).1 ∧
    firstIdx (stop_server (some ())).1
        (Event.stdout "Stopping C Service...\n") <
      firstIdx (stop_server (some ())).1 Event.stopDaemon := by
  refine ⟨by decide, ?_, ?_, by decide⟩ <;> simp [stop_server]

/-- Claim C5: a signal arriving when the handle is null performs no
release, emits nothing and does not exit, and a second termination
signal after a completed shutdown has no effect. -/
theorem null_handle_signal_noop :
    stop_server none = ([], none) ∧
    deliverSignal SIGTERM (ProcState.running none) =
      (ProcState.running none, []) ∧
    deliverSignal SIGINT (ProcState.running none) =
      (ProcState.running none, []) ∧
    (deliverSignal SIGTERM (ProcState.running (some ()))).1 =
      ProcState.exited 0 ∧
    deliverSignal SIGTERM
        (deliverSignal SIGTERM (ProcState.running (some ()))).1 =
      (ProcState.exited 0, []) := by
  decide

/-- Claim C6: two requests with the same URL path, handled under the
same library behaviour, receive the same queued response (status and
body) and the same handler result, whatever their method, protocol
version, upload data, upload size or con_cls slot. -/
theorem response_function_of_path_alone (env : MHDEnv) (url m1 v1 d1 m2 v2 d2 : String)
    (s1 c1 s2 c2 : Nat) :
    (handle_request env url m1 v1 d1 s1 c1).queued =
      (handle_request env url m2 v2 d2 s2 c2).queued ∧
    (handle_request env url m1 v1 d1 s1 c1).result =
      (handle_request env url m2 v2 d2 s2 c2).result := by
  cases h : env.createOk <;> simp [handle_request, h]

/-- Claim C7: when MHD_create_response_from_buffer returns null the
handler returns MHD_NO for that request only, queueing nothing and not
terminating the process; when it succeeds the handler returns exactly
the result of MHD_queue_response. -/
theorem create_failure_isolated (qr : MHD_Result) (url m v d : String) (s c : Nat) :
    (handle_request ⟨false, qr⟩ url m v d s c).result = MHD_Result.MHD_NO ∧
    (handle_request ⟨false, qr⟩ url m v d s c).queued = none ∧
    (handle_request ⟨false, qr⟩ url m v d s c).exited = false ∧
    (handle_request ⟨true, qr⟩ url m v d s c).exited = false ∧
    (handle_request ⟨true, qr⟩ url m v d s c).result = qr := by
  simp [handle_request]

/-- Claim C8: after a successful bind, main installs the interrupt and
termination handlers after the listener is bound, then enters a single
blocking pause as its last action without returning, and the installed
shutdown sequence runs only for those two signals. -/
theorem startup_order_and_blocking (sig : Nat) (h2 : sig ≠ SIGINT)
    (h15 : sig ≠ SIGTERM) :
    (main_trace true).2 = none ∧
    firstIdx (main_trace true).1 (Event.startDaemon PORT) <
      firstIdx (main_trace true).1 (Event.installHandler SIGINT) ∧
    firstIdx (main_trace true).1 (Event.startDaemon PORT) <
      firstIdx (main_trace true).1 (Event.installHandler SIGTERM) ∧
    firstIdx (main_trace true).1 (Event.installHandler SIGINT) <
      firstIdx (main_trace true).1 Event.pauseCall ∧
    firstIdx (main_trace true).1 (Event.installHandler SIGTERM) <
      firstIdx (main_trace true).1 Event.pauseCall ∧
    (main_trace true).1.count Event.pauseCall = 1 ∧
    (main_trace true).1.getLast? = some Event.pauseCall ∧
    (deliverSignal SIGTERM (ProcState.running (some ()))).1 =
      ProcState.exited 0 ∧
    deliverSignal sig (ProcState.running (some ())) =
      (ProcState.running (some ()), []) := by
  refine ⟨by decide, by decide, by decide, by decide, by decide, by decide,
    by decide, by decide, ?_⟩
  simp [deliverSignal, h2, h15]

/-- Witness for claim C8 at signal number 9. -/
theorem startup_order_and_blocking_witness :
    (9 : Nat) ≠ SIGINT ∧ (9 : Nat) ≠ SIGTERM ∧
    deliverSignal 9 (ProcState.running (some ())) =
      (ProcState.running (some ()), []) :=
  ⟨by decide, by decide,
   (startup_order_and_blocking 9 (by decide) (by decide)).2.2.2.2.2.2.2.2⟩

/-- Claim C9: the startup line naming the port is printed to stdout
before the bind is attempted, on both the success and the failure
paths, and on the failure path the stderr message appears as well. -/
theorem port_line_before_bind (b : Bool) :
    Event.stdout "C Service => port 5000\n" ∈ (main_trace b).1 ∧
    firstIdx (main_trace b).1 (Event.stdout "C Service => port 5000\n") <
      firstIdx (main_trace b).1 (Event.startDaemon PORT) ∧
    Event.stderr "Failed to start microhttpd.\n" ∈ (main_trace false).1 := by
  cases b <;> refine ⟨?_, by decide, ?_⟩ <;> simp [main_trace, PORT]

/-- Claim C10: the handler leaves the upload_data_size and con_cls
locations exactly as received, and its entire outcome is unchanged when
only the upload data differs, on both the health branch and the
fallback branch. -/
theorem handler_frame (env : MHDEnv) (url m v d1 d2 : String) (s c : Nat) :
    (handle_request env url m v d1 s c).uploadDataSizeOut = s ∧
    (handle_request env url m v d1 s c).conClsOut = c ∧
    handle_request env url m v d1 s c = handle_request env url m v d2 s c := by
  cases h : env.createOk <;> simp [handle_request, h]
